import Mathlib

/-!
Verification of the storyteller multi-agent hand-off program, `multi_agent.py`:
a shallow embedding of its data model (the shared `StoryData` record, the two
agent personas, environment-variable validation, the STT fallback, the health
HTTP surface and the teardown effect sequence), with theorems checking the
natural-language specification against it.
-/

namespace MultiAgent

/-- The shared dataclass `StoryData`: two optional string fields, both
defaulting to `None` (source lines 81-87). -/
structure StoryData where
  name : Option String := none
  location : Option String := none
deriving Repr, DecidableEq

/-- A chat context is modelled as the list of messages it carries. -/
def ChatContext := List String

/-- Language-generation backends that appear in the source. -/
inductive LLMBackend where
  | openaiLLM (model : String)
deriving Repr, DecidableEq

/-- Speech-synthesis backends that appear in the source. -/
inductive TTSBackend where
  | elevenlabsTTS
deriving Repr, DecidableEq

/-- Speech-recognition backends that appear in the source. -/
inductive STTBackend where
  | deepgramSTT (model : String)
  | openaiSTT
deriving Repr, DecidableEq

/-- An `Agent` as configured in this program: instruction text plus the
model-service overrides passed to `Agent.__init__` (`none` means the
override was not supplied, so the session default applies). -/
structure Agent where
  instructions : String
  llm : Option LLMBackend
  tts : Option TTSBackend
  chat_ctx : Option ChatContext

/-- The constant `common_instructions` (source lines 75-78; Python adjacent
string literals concatenate with no separator). -/
def common_instructions : String :=
  "Your name is Echo. You are a story teller that interacts with the user via voice." ++
  "You are curious and friendly, with a sense of humor."

/-- The instruction f-string of `IntroAgent.__init__` (source lines 92-97). -/
def intro_instructions : String :=
  common_instructions ++ " Your goal is to gather a few pieces of " ++
  "information from the user to make the story personalized and engaging." ++
  "You should ask the user for their name and where they are from." ++
  "Start the conversation with a short introduction."

/-- The intake agent constructor: only instructions are passed; no model-service
override and no chat context (source lines 90-97). -/
def IntroAgent.init : Agent :=
  { instructions := intro_instructions
    llm := none
    tts := none
    chat_ctx := none }

/-- The instruction f-string of `StoryAgent.__init__` (source lines 136-142),
with `name` and `location` interpolated at the end. -/
def story_instructions (name location : String) : String :=
  common_instructions ++ ". You should use the user\x27s information in " ++
  "order to make the story personalized." ++
  "create the entire story, weaving in elements of their information, and make it " ++
  "interactive, occasionally interating with the user." ++
  "do not end on a statement, where the user is not expected to respond." ++
  "when interrupted, ask if the user would like to continue or end." ++
  "The user\x27s name is " ++ name ++ ", from " ++ location ++ "."

/-- The storyteller agent constructor (source lines 133-148): instructions with the two
values interpolated, explicit `llm` and `tts` overrides, and the `chat_ctx`
keyword argument (its Python default is `None`). -/
def StoryAgent.init (name location : String) (chat_ctx : Option ChatContext) : Agent :=
  { instructions := story_instructions name location
    llm := some (LLMBackend.openaiLLM "gpt-4o-mini")
    tts := some TTSBackend.elevenlabsTTS
    chat_ctx := chat_ctx }

/-- Result of the `information_gathered` capability: the updated shared
state, plus the returned pair (new agent, transition line). -/
structure HandoffResult where
  userdata : StoryData
  agent : Agent
  transition : String

/-- The capability `IntroAgent.information_gathered` (source lines 104-130): writes both
fields into the shared state, constructs a `StoryAgent` without passing the
current chat context, and returns it with the fixed transition line. -/
def information_gathered (userdata : StoryData) (name location : String) :
    HandoffResult :=
  { userdata := { userdata with name := some name, location := some location }
    agent := StoryAgent.init name location none
    transition := "Let\x27s start the story!" }

/-- The fixed text of the story instructions preceding the interpolated
`name`. -/
def story_instructions_head : String :=
  common_instructions ++ ". You should use the user\x27s information in " ++
  "order to make the story personalized." ++
  "create the entire story, weaving in elements of their information, and make it " ++
  "interactive, occasionally interating with the user." ++
  "do not end on a statement, where the user is not expected to respond." ++
  "when interrupted, ask if the user would like to continue or end." ++
  "The user\x27s name is "

/-- Regrouping of the story instructions around the interpolated `name`. -/
theorem story_instructions_split (name location : String) :
    story_instructions name location =
      story_instructions_head ++ name ++ (", from " ++ location ++ ".") := by
  simp [story_instructions, story_instructions_head, String.append_assoc]

/-- Regrouping of the story instructions around the interpolated `location`. -/
theorem story_instructions_split_location (name location : String) :
    story_instructions name location =
      (story_instructions_head ++ name ++ ", from ") ++ location ++ "." := by
  simp [story_instructions, story_instructions_head, String.append_assoc]

/-- C1: for every `(name, location)` pair, `information_gathered` writes both
values into the shared state and returns a storyteller agent whose
instruction text contains both values verbatim, paired with the fixed
transition line. -/
theorem information_gathered_spec (ud : StoryData) (name location : String) :
    (information_gathered ud name location).userdata.name = some name ∧
    (information_gathered ud name location).userdata.location = some location ∧
    (∃ p q, (information_gathered ud name location).agent.instructions =
      p ++ name ++ q) ∧
    (∃ p q, (information_gathered ud name location).agent.instructions =
      p ++ location ++ q) ∧
    (information_gathered ud name location).transition = "Let\x27s start the story!" := by
  refine ⟨rfl, rfl, ?_, ?_, rfl⟩
  · exact ⟨_, _, story_instructions_split name location⟩
  · exact ⟨_, _, story_instructions_split_location name location⟩

/-- The semantics the framework gives to the `chat_ctx` argument, per the
in-source comment at lines 123-125: passing `None` starts the agent with a
new (empty) context, passing a context carries it through. -/
def effective_chat_ctx : Option ChatContext → List String
  | none => []
  | some c => c

/-- C10: the hand-off does not carry conversation history: the storyteller
agent built by `information_gathered` is constructed with `chat_ctx = None`
(the commented-out alternative passing `self.chat_ctx` is not active), so it
starts from a fresh, empty chat context. -/
theorem handoff_fresh_chat_context (ud : StoryData) (name location : String) :
    (information_gathered ud name location).agent.chat_ctx = none ∧
    effective_chat_ctx (information_gathered ud name location).agent.chat_ctx = [] := by
  exact ⟨rfl, rfl⟩

/-- Observable effects issued by `story_finished` against the session and
the server API. -/
inductive Effect where
  | interrupt
  | generateReply (instructions : String) (allow_interruptions : Bool)
  | deleteRoom (room : String)
deriving Repr, DecidableEq

/-- Rendering of a Python `Optional[str]` inside an f-string: `None` prints
as the text `None`, a string prints verbatim. -/
def pyStr : Option String → String
  | none => "None"
  | some s => s

/-- The capability `StoryAgent.story_finished` (source lines 155-169) as the ordered list
of effects it performs: interrupt the session, await the uninterruptible
farewell built from the shared name, then delete the room by name. -/
def story_finished (userdata : StoryData) (roomName : String) : List Effect :=
  [Effect.interrupt,
   Effect.generateReply ("say goodbye to " ++ pyStr userdata.name) false,
   Effect.deleteRoom roomName]

/-- C3: `story_finished` first cancels in-flight generation, then awaits the
farewell with interruptions disabled, and only then issues the delete-room
call for the current room; in particular the deletion never precedes the
farewell in the effect trace. -/
theorem story_finished_ordering (ud : StoryData) (room : String) :
    story_finished ud room =
      [Effect.interrupt,
       Effect.generateReply ("say goodbye to " ++ pyStr ud.name) false,
       Effect.deleteRoom room] ∧
    (∀ i, (story_finished ud room).get? i = some (Effect.deleteRoom room) →
      ∃ j, j < i ∧ (story_finished ud room).get? j =
        some (Effect.generateReply ("say goodbye to " ++ pyStr ud.name) false)) := by
  refine ⟨rfl, ?_⟩
  intro i h
  match i with
  | 0 => simp [story_finished, List.get?] at h
  | 1 => simp [story_finished, List.get?] at h
  | 2 => exact ⟨1, by omega, rfl⟩
  | (n + 3) => simp [story_finished, List.get?] at h

/-- Closed instance of the ordering theorem at a concrete state and room. -/
theorem story_finished_ordering_witness :
    ∃ j, j < 2 ∧
      (story_finished { name := some "Ada", location := some "London" } "room1").get? j =
        some (Effect.generateReply ("say goodbye to " ++
          pyStr (some "Ada")) false) :=
  (story_finished_ordering { name := some "Ada", location := some "London" } "room1").2
    2 rfl

/-- C9: the farewell instruction is exactly the text `say goodbye to `
followed by the f-string rendering of the shared name: an unset name yields
`say goodbye to None` rather than a failure, and the effects of
`story_finished` do not depend on the location field at all. -/
theorem story_finished_farewell_name (ud : StoryData) (room : String) :
    (story_finished ud room).get? 1 =
      some (Effect.generateReply ("say goodbye to " ++ pyStr ud.name) false) ∧
    (story_finished { name := none, location := ud.location } room).get? 1 =
      some (Effect.generateReply "say goodbye to None" false) ∧
    (∀ l : Option String,
      story_finished { ud with location := l } room = story_finished ud room) := by
  exact ⟨rfl, rfl, fun _ => rfl⟩

/-- The persona currently driving the session. -/
inductive Persona where
  | intake
  | storyteller
  | ended
deriving Repr, DecidableEq

/-- A session state: the active persona plus the shared `StoryData` record
owned by the session (`userdata`). -/
structure SessionState where
  persona : Persona
  userdata : StoryData
deriving Repr, DecidableEq

/-- The session starts with the intake agent active and a freshly
constructed empty `StoryData()` (source line 191 and 208-209). -/
def session_initial : SessionState :=
  { persona := Persona.intake, userdata := {} }

/-- One capability invocation, as permitted by the active persona: the
intake agent exposes only `information_gathered`, which hands off to the
storyteller with the updated shared state; the storyteller exposes only
`story_finished`, which only reads the state and ends the session. -/
inductive SessionStep : SessionState → SessionState → Prop where
  | gather (ud : StoryData) (name location : String) :
      SessionStep ⟨Persona.intake, ud⟩
        ⟨Persona.storyteller, (information_gathered ud name location).userdata⟩
  | finish (ud : StoryData) :
      SessionStep ⟨Persona.storyteller, ud⟩ ⟨Persona.ended, ud⟩

/-- States reachable from the session start by capability invocations. -/
def SessionReachable : SessionState → Prop :=
  Relation.ReflTransGen SessionStep session_initial

/-- In every reachable state in which the intake persona is still active,
the shared record is still the empty initial one. -/
theorem reachable_intake_unset (st : SessionState) (h : SessionReachable st) :
    st.persona = Persona.intake → st.userdata = {} := by
  induction h with
  | refl => intro _; rfl
  | tail _ step _ =>
      cases step with
      | gather ud name location => intro hp; cases hp
      | finish ud => intro hp; cases hp

/-- C2: the shared state starts with both fields unset; any state still in
the intake persona has them unset (so the single write by
`information_gathered` is the first write); once a field holds a value, no
step changes it; no step re-enters the intake persona, so the writing
capability can fire at most once; and the storyteller step leaves the
shared state untouched. -/
theorem shared_state_write_once :
    session_initial.userdata.name = none ∧
    session_initial.userdata.location = none ∧
    (∀ st st', SessionReachable st → SessionStep st st' →
      ∀ v, st.userdata.name = some v → st'.userdata.name = some v) ∧
    (∀ st st', SessionReachable st → SessionStep st st' →
      ∀ v, st.userdata.location = some v → st'.userdata.location = some v) ∧
    (∀ st st', SessionStep st st' → st'.persona ≠ Persona.intake) ∧
    (∀ ud st', SessionStep ⟨Persona.storyteller, ud⟩ st' → st'.userdata = ud) := by
  refine ⟨rfl, rfl, ?_, ?_, ?_, ?_⟩
  · intro st st' hreach hstep v hv
    cases hstep with
    | gather ud name location =>
        have hud : ud = ({} : StoryData) := by
          have := reachable_intake_unset _ hreach rfl
          simpa using this
        rw [hud] at hv
        cases hv
    | finish ud => exact hv
  · intro st st' hreach hstep v hv
    cases hstep with
    | gather ud name location =>
        have hud : ud = ({} : StoryData) := by
          have := reachable_intake_unset _ hreach rfl
          simpa using this
        rw [hud] at hv
        cases hv
    | finish ud => exact hv
  · intro st st' hstep
    cases hstep with
    | gather ud name location => simp
    | finish ud => simp
  · intro ud st' hstep
    cases hstep
    rfl

/-- Closed instance of the write-once theorem: along the concrete run
intake → storyteller → ended with the pair (Ada, London), the name set by
the hand-off survives the storyteller step. -/
theorem shared_state_write_once_witness :
    (⟨Persona.ended,
      { name := some "Ada", location := some "London" }⟩ : SessionState).userdata.name =
      some "Ada" := by
  have hreach : SessionReachable
      ⟨Persona.storyteller, { name := some "Ada", location := some "London" }⟩ := by
    exact Relation.ReflTransGen.single
      (SessionStep.gather {} "Ada" "London")
  exact shared_state_write_once.2.2.1
    ⟨Persona.storyteller, { name := some "Ada", location := some "London" }⟩
    ⟨Persona.ended, { name := some "Ada", location := some "London" }⟩
    hreach
    (SessionStep.finish { name := some "Ada", location := some "London" })
    "Ada" rfl

/-- An environment: `os.getenv`, returning `None` when a variable is
unset. -/
def Env := String → Option String

/-- Python truthiness of `os.getenv(var)`: falsy when the variable is unset
or set to the empty string. -/
def envTruthy (env : Env) (var : String) : Bool :=
  match env var with
  | none => false
  | some s => !(s == "")

/-- The table `required_env_vars` (source lines 44-49), in source order. -/
def required_env_vars : List (String × String) :=
  [("LIVEKIT_URL", "LiveKit server URL"),
   ("LIVEKIT_API_KEY", "LiveKit API key"),
   ("LIVEKIT_API_SECRET", "LiveKit API secret"),
   ("OPENAI_API_KEY", "OpenAI API key")]

/-- The table `optional_env_vars` (source lines 51-54). -/
def optional_env_vars : List (String × String) :=
  [("DEEPGRAM_API_KEY", "Deepgram API key (fallback to OpenAI STT if missing)"),
   ("ELEVEN_API_KEY", "ElevenLabs API key")]

/-- Formatting of each missing variable: its name followed by its
description in parentheses, as appended at source lines 60 and 70. -/
def format_missing (p : String × String) : String :=
  p.1 ++ " (" ++ p.2 ++ ")"

/-- The list `missing_required` (source lines 57-60): the formatted entries for the
required variables whose value is falsy. -/
def missing_required (env : Env) : List String :=
  (required_env_vars.filter fun p => !envTruthy env p.1).map format_missing

/-- The required-variable check (source lines 62-64): raises `ValueError`
with the enumerating message when any required variable is missing. -/
def check_required (env : Env) : Except String Unit :=
  if missing_required env = [] then Except.ok ()
  else Except.error
    ("Missing required environment variables: " ++
      String.intercalate ", " (missing_required env))

/-- Severity levels of the log calls in the source. -/
inductive LogLevel where
  | info
  | warning
  | error
deriving Repr, DecidableEq

/-- A logged event: severity and message. -/
structure LogEvent where
  level : LogLevel
  message : String
deriving Repr, DecidableEq

/-- The list `missing_optional` (source lines 67-70). -/
def missing_optional (env : Env) : List String :=
  (optional_env_vars.filter fun p => !envTruthy env p.1).map format_missing

/-- The optional-variable check (source lines 72-73): only ever logs a
warning, never raises. -/
def check_optional (env : Env) : List LogEvent :=
  if missing_optional env = [] then []
  else [⟨LogLevel.warning,
    "Missing optional environment variables: " ++
      String.intercalate ", " (missing_optional env)⟩]

/-- C4: the required-variable check passes exactly when all four required
variables are truthy; when at least one is unset or empty it aborts with an
error message built from the formatted missing entries; and an entry
appears among the formatted missing entries exactly when its variable is
falsy, so the message enumerates exactly the missing names with their
descriptions. -/
theorem required_env_check (env : Env) :
    (check_required env = Except.ok () ↔
      ∀ p ∈ required_env_vars, envTruthy env p.1 = true) ∧
    ((∃ p ∈ required_env_vars, envTruthy env p.1 = false) →
      check_required env = Except.error
        ("Missing required environment variables: " ++
          String.intercalate ", " (missing_required env))) ∧
    (∀ p ∈ required_env_vars,
      (format_missing p ∈ missing_required env ↔ envTruthy env p.1 = false)) := by
  cases hU : envTruthy env "LIVEKIT_URL" <;>
    cases hK : envTruthy env "LIVEKIT_API_KEY" <;>
      cases hS : envTruthy env "LIVEKIT_API_SECRET" <;>
        cases hO : envTruthy env "OPENAI_API_KEY" <;>
          simp [check_required, missing_required, required_env_vars, format_missing,
            hU, hK, hS, hO]

/-- An environment with only the server URL missing. -/
def env_missing_url : Env :=
  fun v => if v = "LIVEKIT_URL" then none else some "set"

/-- An environment in which every variable is set to a non-empty value. -/
def env_all_set : Env :=
  fun _ => some "set"

/-- Closed instance of the required-variable check: with only the URL
missing the startup error names exactly that variable and its description,
and with everything set the check passes. -/
theorem required_env_check_witness :
    check_required env_missing_url =
      Except.error
        "Missing required environment variables: LIVEKIT_URL (LiveKit server URL)" ∧
    check_required env_all_set = Except.ok () := by
  constructor
  · have h := (required_env_check env_missing_url).2.1
      ⟨("LIVEKIT_URL", "LiveKit server URL"), by simp [required_env_vars], by rfl⟩
    rw [h]
    rfl
  · exact (required_env_check env_all_set).1.mpr (fun p _ => rfl)

/-- The session-default language-generation backend (source line 188). -/
def session_default_llm : LLMBackend :=
  LLMBackend.openaiLLM "gpt-4o-mini"

/-- The session-default speech-synthesis backend (source line 190). -/
def session_default_tts : TTSBackend :=
  TTSBackend.elevenlabsTTS

/-- The STT selection of `entrypoint` (source lines 177-183): one attempt
at Deepgram; on any construction failure, log a warning and use OpenAI
Whisper, with no retry. The outcome of the single Deepgram construction
attempt is the parameter. -/
def select_stt (deepgram_init : Except String Unit) : STTBackend × List LogEvent :=
  match deepgram_init with
  | Except.ok () =>
      (STTBackend.deepgramSTT "nova-3", [⟨LogLevel.info, "Using Deepgram STT"⟩])
  | Except.error e =>
      (STTBackend.openaiSTT,
       [⟨LogLevel.warning,
         "Failed to initialize Deepgram STT: " ++ e ++ ". Falling back to OpenAI Whisper"⟩])

/-- The `AgentSession` configuration built by `entrypoint`
(source lines 185-192 and 208-216): default backends, the selected STT, an
empty `StoryData` and the intake agent as the starting agent. -/
structure Session where
  llm : LLMBackend
  stt : STTBackend
  tts : TTSBackend
  userdata : StoryData
  initial_agent : Agent

/-- The function `entrypoint` as a function of the Deepgram construction outcome: it
always constructs and starts the session, whatever that outcome was. -/
def entrypoint (deepgram_init : Except String Unit) : Session × List LogEvent :=
  (({ llm := session_default_llm
      stt := (select_stt deepgram_init).1
      tts := session_default_tts
      userdata := {}
      initial_agent := IntroAgent.init } : Session),
   (select_stt deepgram_init).2)

/-- C5: a missing optional variable produces at most a logged warning (the
optional check has no failure outcome at all); a failed Deepgram
construction still yields a fully constructed session, now with the OpenAI
Whisper backend and exactly one logged warning; a successful construction
selects Deepgram. -/
theorem stt_fallback (env : Env) (e : String) :
    (∀ ev ∈ check_optional env, ev.level = LogLevel.warning) ∧
    (entrypoint (Except.error e)).1.stt = STTBackend.openaiSTT ∧
    (entrypoint (Except.error e)).1.initial_agent = IntroAgent.init ∧
    (entrypoint (Except.error e)).2 =
      [⟨LogLevel.warning,
        "Failed to initialize Deepgram STT: " ++ e ++ ". Falling back to OpenAI Whisper"⟩] ∧
    (entrypoint (Except.ok ())).1.stt = STTBackend.deepgramSTT "nova-3" := by
  refine ⟨?_, rfl, rfl, rfl, rfl⟩
  intro ev hev
  by_cases h : missing_optional env = [] <;> simp [check_optional, h] at hev
  rw [hev]

/-- An environment with no variable set at all. -/
def env_unset : Env :=
  fun _ => none

/-- Closed instance of the fallback theorem: with nothing set, the single
optional-variable log event is a warning. -/
theorem stt_fallback_witness :
    (⟨LogLevel.warning,
      "Missing optional environment variables: " ++
        String.intercalate ", " (missing_optional env_unset)⟩ : LogEvent).level =
      LogLevel.warning :=
  (stt_fallback env_unset "no key").1 _
    (by simp [check_optional, missing_optional, optional_env_vars, envTruthy, env_unset])

/-- C6 counterexample: the storyteller override values are not distinct
from the session defaults — the override is the same OpenAI model and the
same ElevenLabs backend the session itself uses. -/
theorem story_agent_backends_not_distinct :
    ¬ ((StoryAgent.init "Ada" "London" none).llm ≠ some session_default_llm ∧
       (StoryAgent.init "Ada" "London" none).tts ≠ some session_default_tts) := by
  intro h
  exact h.1 rfl

/-- C6 (amended): every storyteller agent is constructed with explicitly
supplied persona-specific `llm` and `tts` overrides (the intake agent
supplies none), but the overriding values coincide with the session
defaults: the same `gpt-4o-mini` OpenAI model and the same ElevenLabs
speech synthesis. -/
theorem story_agent_backend_overrides (name location : String) (ctx : Option ChatContext) :
    (StoryAgent.init name location ctx).llm = some (LLMBackend.openaiLLM "gpt-4o-mini") ∧
    (StoryAgent.init name location ctx).tts = some TTSBackend.elevenlabsTTS ∧
    (StoryAgent.init name location ctx).llm = some session_default_llm ∧
    (StoryAgent.init name location ctx).tts = some session_default_tts ∧
    IntroAgent.init.llm = none ∧
    IntroAgent.init.tts = none :=
  ⟨rfl, rfl, rfl, rfl, rfl, rfl⟩

/-- The FastAPI health application (source lines 233-242): the three GET
routes and their JSON bodies, modelled as the key-value content of the
returned dictionary; any other method or path is not served by this app. -/
def health_app (method : String) (path : String) :
    Option (Nat × List (String × String)) :=
  match method, path with
  | "GET", "/" => some (200, [("status", "healthy")])
  | "GET", "/health" => some (200, [("status", "healthy")])
  | "GET", "/ready" => some (200, [("status", "ready")])
  | _, _ => none

/-- C7: `GET /` and `GET /health` answer 200 with status healthy,
`GET /ready` answers 200 with status ready, and every request the app
serves is a GET for one of exactly those three paths. -/
theorem health_endpoints :
    health_app "GET" "/" = some (200, [("status", "healthy")]) ∧
    health_app "GET" "/health" = some (200, [("status", "healthy")]) ∧
    health_app "GET" "/ready" = some (200, [("status", "ready")]) ∧
    (∀ m p r, health_app m p = some r →
      m = "GET" ∧ (p = "/" ∨ p = "/health" ∨ p = "/ready") ∧ r.1 = 200) := by
  refine ⟨rfl, rfl, rfl, ?_⟩
  intro m p r h
  unfold health_app at h
  split at h <;> simp_all <;> exact h ▸ rfl

/-- Closed instance of the health-endpoint theorem at the ready route. -/
theorem health_endpoints_witness :
    "GET" = "GET" ∧
    ("/ready" = "/" ∨ "/ready" = "/health" ∨ "/ready" = "/ready") ∧
    ((200 : Nat), [("status", "ready")]).1 = 200 :=
  health_endpoints.2.2.2 "GET" "/ready" (200, [("status", "ready")]) rfl

/-- The function `start_simple_health_server` (source lines 219-253): the whole body is
wrapped in try/except, so a startup failure is reduced to a warning and
the function returns normally either way; the Boolean records whether the
background server thread was started. -/
def start_simple_health_server (startup : Except String Unit) (health_port : Nat) :
    Bool × List LogEvent :=
  match startup with
  | Except.ok () =>
      (true, [⟨LogLevel.info, "Health server started on port " ++ toString health_port⟩])
  | Except.error e =>
      (false, [⟨LogLevel.warning, "Failed to start health server: " ++ e⟩])

/-- Outcome of the `__main__` block: whether the health server runs, what
was logged for it, and whether the agent worker was started. -/
structure MainOutcome where
  health_server_running : Bool
  logs : List LogEvent
  worker_started : Bool

/-- The `__main__` block (source lines 256-278): start the health server
best-effort, then unconditionally proceed to start the agent worker. -/
def main_flow (health_startup : Except String Unit) (health_port : Nat) : MainOutcome :=
  { health_server_running := (start_simple_health_server health_startup health_port).1
    logs := (start_simple_health_server health_startup health_port).2
    worker_started := true }

/-- C8: a health-listener startup failure is logged as a warning and the
main process still starts the agent worker, just without health endpoints;
a successful start also proceeds to the worker. -/
theorem health_server_failure_nonfatal (e : String) (port : Nat) :
    (main_flow (Except.error e) port).worker_started = true ∧
    (main_flow (Except.error e) port).health_server_running = false ∧
    (main_flow (Except.error e) port).logs =
      [⟨LogLevel.warning, "Failed to start health server: " ++ e⟩] ∧
    (main_flow (Except.ok ()) port).worker_started = true :=
  ⟨rfl, rfl, rfl, rfl⟩

end MultiAgent
